import Mathlib

set_option maxRecDepth 4000

/-!
Shallow embedding of the realtime-conflict-scanner server routes.

Strings of the TypeScript source are modelled as `List Char`; the JSON
values flowing between the routes and their upstream services are
modelled by the inductive `JsonV`; exceptional control flow
(`throw` / `try` / `catch`) is modelled with `Except JsErr`.
-/

abbrev Str := List Char

/-- Convert a Lean string literal to the `List Char` model type. -/
def ts (s : String) : Str := s.toList

/-- Whitespace as trimmed by `String.prototype.trim` (common characters). -/
def jsWs (c : Char) : Bool := c = ' ' || c = '\t' || c = '\n' || c = '\r'

/-- JavaScript `s.trim()`. -/
def trimStr (l : Str) : Str :=
  ((l.dropWhile jsWs).reverse.dropWhile jsWs).reverse

/-- JavaScript `s.split(',')`. -/
def splitComma : Str → List Str
  | [] => [[]]
  | c :: rest =>
    if c = ',' then [] :: splitComma rest
    else
      match splitComma rest with
      | s :: ss => (c :: s) :: ss
      | [] => [[c]]

/-- JavaScript `xs.join(sep)`. -/
def joinSep (sep : Str) : List Str → Str
  | [] => []
  | [x] => x
  | x :: y :: xs => x ++ sep ++ joinSep sep (y :: xs)

/-- The markdown-fence stripping performed before `JSON.parse` in
`extract-keywords/route.ts` and in the `part_000` analyze variant:
trim, drop a leading ```` ```json ```` (7 chars) or ```` ``` ```` (3 chars),
drop a trailing ```` ``` ````, trim again. -/
def stripFences (content : Str) : Str :=
  let c := trimStr content
  let c :=
    if (ts "```json").isPrefixOf c then c.drop 7
    else if (ts "```").isPrefixOf c then c.drop 3
    else c
  let c := if (ts "```").isSuffixOf c then c.take (c.length - 3) else c
  trimStr c

/-- JSON values (numbers kept as their raw source characters). -/
inductive JsonV where
  | null : JsonV
  | bool (b : Bool) : JsonV
  | num (raw : Str) : JsonV
  | str (s : Str) : JsonV
  | arr (xs : List JsonV) : JsonV
  | obj (fields : List (Str × JsonV)) : JsonV

/-- JavaScript truthiness of a JSON value. -/
def truthy : JsonV → Bool
  | .null => false
  | .bool b => b
  | .num raw =>
    !(((raw.takeWhile (fun c => c ≠ 'e' && c ≠ 'E')).filter Char.isDigit).all (· = '0'))
  | .str s => !s.isEmpty
  | .arr _ => true
  | .obj _ => true

/-- Truthiness of a possibly-undefined value. -/
def truthyO : Option JsonV → Bool
  | none => false
  | some v => truthy v

/-- Field lookup in a JSON object literal (first binding wins). -/
def lookupField : List (Str × JsonV) → Str → Option JsonV
  | [], _ => none
  | (k, v) :: rest, key => if k = key then some v else lookupField rest key

/-! JSON.parse, as a fuelled recursive-descent parser. -/

/-- Whitespace accepted between JSON tokens. -/
def skipWs (l : Str) : Str := l.dropWhile jsWs

def hexVal (c : Char) : Option Nat :=
  if '0' ≤ c ∧ c ≤ '9' then some (c.toNat - '0'.toNat)
  else if 'a' ≤ c ∧ c ≤ 'f' then some (c.toNat - 'a'.toNat + 10)
  else if 'A' ≤ c ∧ c ≤ 'F' then some (c.toNat - 'A'.toNat + 10)
  else none

def escChar (c : Char) : Option Char :=
  if c = '"' then some '"'
  else if c = '\\' then some '\\'
  else if c = '/' then some '/'
  else if c = 'b' then some (Char.ofNat 8)
  else if c = 'f' then some (Char.ofNat 12)
  else if c = 'n' then some '\n'
  else if c = 'r' then some '\r'
  else if c = 't' then some '\t'
  else none

/-- Parse the body of a JSON string (after the opening quote). -/
def parseStrBody : Nat → Str → Option (Str × Str)
  | 0, _ => none
  | _ + 1, [] => none
  | fuel + 1, c :: rest =>
    if c = '"' then some ([], rest)
    else if c = '\\' then
      match rest with
      | [] => none
      | e :: rest2 =>
        if e = 'u' then
          match rest2 with
          | h1 :: h2 :: h3 :: h4 :: rest3 =>
            match hexVal h1, hexVal h2, hexVal h3, hexVal h4 with
            | some a, some b, some c3, some d =>
              match parseStrBody fuel rest3 with
              | some (s, rem) => some (Char.ofNat (((a * 16 + b) * 16 + c3) * 16 + d) :: s, rem)
              | none => none
            | _, _, _, _ => none
          | _ => none
        else
          match escChar e with
          | some ec =>
            match parseStrBody fuel rest2 with
            | some (s, rem) => some (ec :: s, rem)
            | none => none
          | none => none
    else if c.toNat < 32 then none
    else
      match parseStrBody fuel rest with
      | some (s, rem) => some (c :: s, rem)
      | none => none

/-- Integer part of a JSON number: `0` or a nonzero digit followed by digits. -/
def parseIntPart : Str → Option Str
  | [] => none
  | c :: rest =>
    if c = '0' then some rest
    else if c.isDigit then some (rest.dropWhile Char.isDigit)
    else none

/-- Optional fraction part: `.` followed by at least one digit. -/
def parseFracPart : Str → Option Str
  | '.' :: rest =>
    match rest with
    | c :: _ => if c.isDigit then some (rest.dropWhile Char.isDigit) else none
    | [] => none
  | l => some l

/-- Optional exponent part: `e`/`E`, optional sign, at least one digit. -/
def parseExpPart : Str → Option Str
  | [] => some []
  | c :: rest =>
    if c = 'e' || c = 'E' then
      let rest2 :=
        match rest with
        | s :: r => if s = '+' || s = '-' then r else s :: r
        | [] => []
      match rest2 with
      | d :: _ => if d.isDigit then some (rest2.dropWhile Char.isDigit) else none
      | [] => none
    else some (c :: rest)

/-- Parse a JSON number, returning its raw text and the remainder. -/
def parseNumber (l : Str) : Option (Str × Str) :=
  let body := match l with | '-' :: rest => rest | _ => l
  match parseIntPart body with
  | none => none
  | some r1 =>
    match parseFracPart r1 with
    | none => none
    | some r2 =>
      match parseExpPart r2 with
      | none => none
      | some r3 => some (l.take (l.length - r3.length), r3)

/-- Parser modes: a single value, array elements, or object members. -/
inductive PMode where
  | val : PMode
  | arrItems : PMode
  | objItems : PMode

/-- Parser results for the three modes. -/
inductive PRes where
  | v (x : JsonV) (rest : Str) : PRes
  | vs (xs : List JsonV) (rest : Str) : PRes
  | fs (fields : List (Str × JsonV)) (rest : Str) : PRes

/-- Fuelled JSON parser core. In `arrItems` / `objItems` mode the input
starts at the first element / member and the result consumes the closing
bracket. -/
def parseP : Nat → PMode → Str → Option PRes
  | 0, _, _ => none
  | fuel + 1, .val, l =>
    match skipWs l with
    | [] => none
    | c :: rest =>
      if c = 'n' then
        if (ts "ull").isPrefixOf rest then some (.v .null (rest.drop 3)) else none
      else if c = 't' then
        if (ts "rue").isPrefixOf rest then some (.v (.bool true) (rest.drop 3)) else none
      else if c = 'f' then
        if (ts "alse").isPrefixOf rest then some (.v (.bool false) (rest.drop 4)) else none
      else if c = '"' then
        match parseStrBody (rest.length + 1) rest with
        | some (s, rem) => some (.v (.str s) rem)
        | none => none
      else if c = '[' then
        match skipWs rest with
        | ']' :: r2 => some (.v (.arr []) r2)
        | r1 =>
          match parseP fuel .arrItems r1 with
          | some (.vs xs rem) => some (.v (.arr xs) rem)
          | _ => none
      else if c = '{' then
        match skipWs rest with
        | '}' :: r2 => some (.v (.obj []) r2)
        | r1 =>
          match parseP fuel .objItems r1 with
          | some (.fs fields rem) => some (.v (.obj fields) rem)
          | _ => none
      else if c = '-' || c.isDigit then
        match parseNumber (c :: rest) with
        | some (raw, rem) => some (.v (.num raw) rem)
        | none => none
      else none
  | fuel + 1, .arrItems, l =>
    match parseP fuel .val l with
    | some (.v x rem) =>
      (match skipWs rem with
      | ',' :: r2 =>
        match parseP fuel .arrItems r2 with
        | some (.vs xs rr) => some (.vs (x :: xs) rr)
        | _ => none
      | ']' :: r2 => some (.vs [x] r2)
      | _ => none)
    | _ => none
  | fuel + 1, .objItems, l =>
    match skipWs l with
    | '"' :: r1 =>
      match parseStrBody (r1.length + 1) r1 with
      | some (k, r2) =>
        (match skipWs r2 with
        | ':' :: r3 =>
          match parseP fuel .val r3 with
          | some (.v x rem) =>
            (match skipWs rem with
            | ',' :: r4 =>
              match parseP fuel .objItems r4 with
              | some (.fs fields rr) => some (.fs ((k, x) :: fields) rr)
              | _ => none
            | '}' :: r4 => some (.fs [(k, x)] r4)
            | _ => none)
          | _ => none
        | _ => none)
      | none => none
    | _ => none

/-- JavaScript `JSON.parse`: a parsed value, or `none` for a `SyntaxError`. -/
def jsonParse (l : Str) : Option JsonV :=
  match parseP (l.length + 1) .val l with
  | some (.v x rem) => if (skipWs rem).isEmpty then some x else none
  | _ => none

/-- A string is accepted by `JSON.parse`. -/
def jsonValid (l : Str) : Bool := (jsonParse l).isSome


/-! HTTP model: responses, JS exceptions, environment, upstream services. -/

/-- An HTTP response produced with `NextResponse.json(body, status)`. -/
structure HttpResp where
  status : Nat
  body : JsonV

/-- A thrown JavaScript exception, as distinguished by the route handlers. -/
inductive JsErr where
  | syntaxErr : JsErr
  | typeErr (msg : Str) : JsErr
  | err (msg : Str) : JsErr

/-- JavaScript `String(error)`. -/
def jsErrString : JsErr → Str
  | .syntaxErr => ts "SyntaxError: Unexpected token"
  | .typeErr m => ts "TypeError: " ++ m
  | .err m => ts "Error: " ++ m

/-- JavaScript `error.message`. -/
def jsErrMessage : JsErr → Str
  | .syntaxErr => ts "Unexpected token"
  | .typeErr m => m
  | .err m => m

/-- `process.env` values read by the routes. -/
structure Env where
  openaiApiKey : Option Str
  newsApiKey : Option Str

/-- `if (!KEY)`: a key counts as configured when present and non-empty. -/
def envKey : Option Str → Option Str
  | some k => if k.isEmpty then none else some k
  | none => none

/-- `fetch` `response.ok`: status in the range 200-299. -/
def respOk (status : Nat) : Bool := 200 ≤ status && status < 300

/-- `x || "default"` for an optional string. -/
def orDefault (o : Option Str) (d : String) : Str :=
  match o with
  | some m => if m.isEmpty then ts d else m
  | none => ts d

/-- Response body `{ error: msg }`. -/
def errBodyS (msg : Str) : JsonV := .obj [(ts "error", .str msg)]

def errBody (msg : String) : JsonV := errBodyS (ts msg)

/-- Response body `{ error: msg, details: details }`. -/
def errDetailsBody (msg : String) (details : Str) : JsonV :=
  .obj [(ts "error", .str (ts msg)), (ts "details", .str details)]

/-- A news article as destructured by the analyze routes. -/
structure Article where
  title : Str
  description : Str
  sourceName : Option Str
  url : Str
  publishedAt : Str

/-- A file received through `formData.get("file")`. -/
structure JFile where
  name : Str
  size : Nat

/-- Body of an OpenAI chat-completions call issued by a route. -/
structure OpenAICall where
  model : Str
  system : Str
  user : Str
  temperature : Str
  maxTokens : Nat

/-- Query parameters of the NewsAPI call issued by the search-news route. -/
structure NewsCall where
  q : Str
  sortBy : Str
  pageSize : Str
  language : Str
  apiKey : Str

/-- One outgoing request to an upstream service. -/
inductive UpstreamCall where
  | openai (c : OpenAICall) : UpstreamCall
  | news (c : NewsCall) : UpstreamCall
  | n8n (f : JFile) : UpstreamCall

/-- `data.choices[0]?.message?.content` of an OpenAI response. -/
structure ChatMessage where
  content : Option Str

structure ChatChoice where
  message : Option ChatMessage

/-- JSON body of an OpenAI chat-completions response (fields the routes read). -/
structure OpenAIBody where
  choices : List ChatChoice
  errorMessage : Option Str

/-- The response the OpenAI endpoint would give to a call; `body = none`
models a body on which `response.json()` throws a `SyntaxError`. -/
structure OpenAIUp where
  status : Nat
  body : Option OpenAIBody

/-- JSON body of a NewsAPI response (fields the route reads). -/
structure NewsBody where
  articles : Option JsonV
  totalResults : Option JsonV
  message : Option Str

structure NewsUp where
  status : Nat
  body : Option NewsBody

/-- The response of the n8n webhook: `.text()` is read on the error path and
`.json()` on the success path (`jsonBody = none` models invalid JSON). -/
structure N8nUp where
  status : Nat
  textBody : Str
  jsonBody : Option JsonV

/-- `data.choices[0]?.message?.content`. -/
def chatContent (b : OpenAIBody) : Option Str :=
  match b.choices.head? with
  | none => none
  | some ch =>
    match ch.message with
    | none => none
    | some m => m.content

/-- Content string of an upstream OpenAI response, if any. -/
def openaiContent (u : OpenAIUp) : Option Str :=
  match u.body with
  | some b => chatContent b
  | none => none

/-! Prompts, embedded verbatim from the route sources. -/

/-- System message of `analyze/route.ts`. -/
def analyzeSystemPrompt : Str :=
  ts "You are a senior legal conflicts analyst at a law firm. Your expertise is identifying potential conflicts of interest that could prevent or complicate client representation. Always respond with valid JSON only, no additional text."

/-- User prompt of `analyze/route.ts` before the interpolated search terms. -/
def analyzePromptPart1 : Str :=
  ts "You are a legal conflict of interest analyst for a law firm. Your job is to analyze news articles about \""

/-- User prompt of `analyze/route.ts` between the search terms and the articles. -/
def analyzePromptPart2 : Str := ts (String.intercalate "\n" [
  "\" to identify information that would be relevant when deciding whether the firm can ethically and legally take on this entity as a client.",
  "",
  "Focus specifically on identifying:",
  "1. **Mergers & Acquisitions** - Any M&A activity involving the entity, target companies, or acquiring parties",
  "2. **Partnerships & Joint Ventures** - Business partnerships, strategic alliances, or joint ventures",
  "3. **Litigation & Lawsuits** - Active or pending lawsuits, legal disputes, class actions (as plaintiff or defendant)",
  "4. **Regulatory Actions** - Government investigations, SEC inquiries, FTC actions, compliance issues, fines, sanctions",
  "5. **Disputes** - Contract disputes, IP disputes, employment disputes, shareholder disputes",
  "6. **Industry-wide Issues** - Sector-wide regulatory changes, antitrust concerns, or collective legal matters",
  "7. **Executive Moves** - C-suite changes, key personnel departures, executive controversies",
  "8. **Board Memberships** - Board appointments, resignations, or directors serving on multiple boards",
  "9. **Ownership Changes** - Significant stake acquisitions, divestitures, private equity involvement, activist investors",
  "10. **Other Conflict-Relevant News** - Bankruptcy, restructuring, reputational issues, adverse media coverage",
  "",
  "NEWS ARTICLES:",
  ""])

/-- User prompt of `analyze/route.ts` after the interpolated article list. -/
def analyzePromptPart3 : Str := ts (String.intercalate "\n" [
  "",
  "",
  "Provide your analysis in the following JSON format:",
  "\x7b",
  "  \"summary\": \"A brief 2-3 sentence overview highlighting the most significant conflict-of-interest concerns for a law firm considering this client\",",
  "  \"riskLevel\": \"LOW\" | \"MEDIUM\" | \"HIGH\" | \"CRITICAL\",",
  "  \"conflicts\": [",
  "    \x7b",
  "      \"title\": \"Brief title describing the conflict type (e.g., \x27Active Litigation with XYZ Corp\x27)\",",
  "      \"source\": \"Source article name\",",
  "      \"description\": \"Detailed description explaining why this poses a potential conflict of interest for the firm, including relevant parties, nature of the issue, and implications\",",
  "      \"severity\": \"LOW\" | \"MEDIUM\" | \"HIGH\" | \"CRITICAL\",",
  "      \"url\": \"Article URL\"",
  "    \x7d",
  "  ],",
  "  \"recommendations\": [",
  "    \"Specific actionable recommendation for conflict clearance process\",",
  "    \"Additional due diligence steps\"",
  "  ]",
  "\x7d",
  "",
  "Risk Level Guidelines:",
  "- LOW: No significant conflict indicators; standard intake procedures sufficient",
  "- MEDIUM: Potential conflicts identified; requires enhanced conflict check against existing clients and matters",
  "- HIGH: Significant conflict indicators; requires immediate review by conflicts counsel and potentially ethics committee",
  "- CRITICAL: Clear conflict-of-interest red flags; likely cannot represent this client without waivers or declining representation",
  "",
  "Analyze all articles and generate up to 10 potential conflicts of interest, prioritized by severity.",
  "Be specific and cite actual content from the articles. Focus on facts that would trigger a conflict check, not general business news."])

/-- `a.source?.name || "Unknown"`. -/
def orUnknown (o : Option Str) : Str :=
  match o with
  | some n => if n.isEmpty then ts "Unknown" else n
  | none => ts "Unknown"

/-- `a.description || "No description"`. -/
def orNoDescription (d : Str) : Str := if d.isEmpty then ts "No description" else d

/-- One article entry of the articles block (shared by both analyze variants). -/
def articleBlock (i : Nat) (a : Article) : Str :=
  ts "\nArticle " ++ ts (Nat.repr (i + 1)) ++ ts ":\n- Title: " ++ a.title ++
  ts "\n- Source: " ++ orUnknown a.sourceName ++
  ts "\n- Description: " ++ orNoDescription a.description ++
  ts "\n- Published: " ++ a.publishedAt ++ ts "\n- URL: " ++ a.url ++ ts "\n"

/-- `articles.map(...).join("\n")`. -/
def articlesBlock (arts : List Article) : Str :=
  joinSep (ts "\n") (arts.enum.map fun p => articleBlock p.1 p.2)

def analyzeUserPrompt (searchTerms : Str) (arts : List Article) : Str :=
  analyzePromptPart1 ++ searchTerms ++ analyzePromptPart2 ++ articlesBlock arts ++ analyzePromptPart3

/-- System message of the `part_000` analyze variant. -/
def part000SystemPrompt : Str :=
  ts "You are a professional risk and compliance analyst. Always respond with valid JSON only, no additional text."

def part000PromptPart1 : Str :=
  ts "You are a conflict of interest and risk assessment analyst. Analyze the following news articles about \""

def part000PromptPart2 : Str := ts (String.intercalate "\n" [
  "\" and identify potential conflicts of interest, legal issues, regulatory concerns, or reputational risks.",
  "",
  "NEWS ARTICLES:",
  ""])

def part000PromptPart3 : Str := ts (String.intercalate "\n" [
  "",
  "",
  "Provide your analysis in the following JSON format:",
  "\x7b",
  "  \"summary\": \"A brief 2-3 sentence overview of the overall risk assessment\",",
  "  \"riskLevel\": \"LOW\" | \"MEDIUM\" | \"HIGH\" | \"CRITICAL\",",
  "  \"conflicts\": [",
  "    \x7b",
  "      \"title\": \"Brief title of the conflict\",",
  "      \"source\": \"Source article name\",",
  "      \"description\": \"Detailed description of the potential conflict\",",
  "      \"severity\": \"LOW\" | \"MEDIUM\" | \"HIGH\" | \"CRITICAL\",",
  "      \"url\": \"Article URL if relevant\"",
  "    \x7d",
  "  ],",
  "  \"recommendations\": [",
  "    \"Specific actionable recommendation 1\",",
  "    \"Specific actionable recommendation 2\"",
  "  ]",
  "\x7d",
  "",
  "Risk Level Guidelines:",
  "- LOW: Minor concerns, routine monitoring recommended",
  "- MEDIUM: Notable concerns requiring attention, enhanced due diligence recommended",
  "- HIGH: Significant red flags, immediate review and action required",
  "- CRITICAL: Severe issues, potential legal/regulatory exposure, immediate escalation required",
  "",
  "Generate a list of the top 10 potential conflicts of interest available in the articles.",
  "Be specific and cite actual content from the articles. Only include genuine concerns, not speculation."])

def part000UserPrompt (searchTerms : Str) (arts : List Article) : Str :=
  part000PromptPart1 ++ searchTerms ++ part000PromptPart2 ++ articlesBlock arts ++ part000PromptPart3

/-- System message of `extract-keywords/route.ts`. -/
def kwSystemPrompt : Str :=
  ts "You are an expert at extracting names of people and organizations from legal documents. Always respond with ONLY a valid JSON array of strings, nothing else. No markdown, no explanation."

def kwPromptPart1 : Str := ts (String.intercalate "\n" [
  "Analyze the following document text and extract ALL key parties that could be relevant for a conflict of interest check.",
  "",
  "Look carefully for:",
  "- Full names of people (e.g., \"Sarah Johnson\", \"David Lee\")",
  "- Company names (e.g., \"DL Consulting Ltd\")",
  "- Organization names",
  "- Law firms mentioned",
  "- Any business entities",
  "- Opposing parties in disputes",
  "- Clients",
  "- Partners or associates",
  "",
  "Document content:",
  "\"\"\"",
  ""])

def kwPromptPart2 : Str := ts (String.intercalate "\n" [
  "",
  "\"\"\"",
  "",
  "Extract every person name and company/organization name you can find. Return a JSON array of strings.",
  "If you find names, return them. If the document is empty or unreadable, return an empty array [].",
  "",
  "Example output format:",
  "[\"Sarah Johnson\", \"David Lee\", \"DL Consulting Ltd\", \"Green Street Properties\"]"])

/-- User prompt of `extract-keywords/route.ts`: only the first 15000
characters of the extracted text are interpolated. -/
def kwUserPrompt (text : Str) : Str :=
  kwPromptPart1 ++ text.take 15000 ++ kwPromptPart2

/-! Route handlers. Each handler returns the HTTP response together with the
list of upstream requests it issued. -/

/-- Request body of the analyze routes; `articles = none` models an absent
(or otherwise falsy) `articles` field. -/
structure AnalyzeReq where
  searchTerms : Str
  articles : Option (List Article)

/-- The fixed local response of the analyze routes when no articles were
supplied (`analyze/route.ts` lines 32-43). -/
def localAnalysisBody : JsonV := .obj [
  (ts "summary", .str (ts "No news articles found for the provided search terms.")),
  (ts "riskLevel", .str (ts "LOW")),
  (ts "conflicts", .arr []),
  (ts "recommendations", .arr [
    .str (ts "Consider expanding search terms to include more variations"),
    .str (ts "Check for potential misspellings in the entity names"),
    .str (ts "Monitor for future news developments")])]

/-- Fence-stripping LLM-output parse used by `extract-keywords/route.ts`
and the `part_000` analyze variant: `JSON.parse` after `stripFences`. -/
def parseLlmJson (content : Str) : Option JsonV := jsonParse (stripFences content)

/-- The `catch` block of both analyze variants. -/
def analyzeCatch : Except JsErr HttpResp → HttpResp
  | .ok r => r
  | .error .syntaxErr => ⟨500, errBody "Failed to parse AI analysis response"⟩
  | .error e => ⟨500, errDetailsBody "Failed to analyze results" (jsErrString e)⟩

/-- Shared body of the two analyze variants; they differ only in the prompt
text and in whether markdown fences are stripped before `JSON.parse`. -/
def analyzeBody (strip : Bool) (u : OpenAIUp) : Except JsErr HttpResp :=
  if respOk u.status = false then
    match u.body with
    | none => .error .syntaxErr
    | some b => .error (.err (orDefault b.errorMessage "Failed to analyze with AI"))
  else
    match u.body with
    | none => .error .syntaxErr
    | some b =>
      match chatContent b with
      | some c =>
        if c.isEmpty then .error (.err (ts "No analysis content returned from AI"))
        else
          match (if strip then parseLlmJson c else jsonParse c) with
          | some v => .ok ⟨200, v⟩
          | none => .error .syntaxErr
      | none => .error (.err (ts "No analysis content returned from AI"))

/-- `POST` of `src/sample-app/src/app/api/analyze/route.ts`. The LLM content
is passed to `JSON.parse` as is (no fence stripping). -/
def analyzePOST (req : AnalyzeReq) (env : Env) (u : OpenAIUp) :
    HttpResp × List UpstreamCall :=
  match req.articles with
  | none => (⟨200, localAnalysisBody⟩, [])
  | some arts =>
    if arts.length = 0 then (⟨200, localAnalysisBody⟩, [])
    else
      match envKey env.openaiApiKey with
      | none => (⟨500, errBody "OPENAI_API_KEY is not configured. Please add it to your .env.local file."⟩, [])
      | some _ =>
        let call := UpstreamCall.openai
          ⟨ts "gpt-4o-mini", analyzeSystemPrompt,
            analyzeUserPrompt req.searchTerms arts, ts "0.3", 2000⟩
        (analyzeCatch (analyzeBody false u), [call])

/-- `POST` of the `src/unnamed/part_000` analyze variant. Markdown fences
are stripped from the LLM content before `JSON.parse`. -/
def part000AnalyzePOST (req : AnalyzeReq) (env : Env) (u : OpenAIUp) :
    HttpResp × List UpstreamCall :=
  match req.articles with
  | none => (⟨200, localAnalysisBody⟩, [])
  | some arts =>
    if arts.length = 0 then (⟨200, localAnalysisBody⟩, [])
    else
      match envKey env.openaiApiKey with
      | none => (⟨500, errBody "OPENAI_API_KEY is not configured. Please add it to your .env.local file."⟩, [])
      | some _ =>
        let call := UpstreamCall.openai
          ⟨ts "gpt-4o-mini", part000SystemPrompt,
            part000UserPrompt req.searchTerms arts, ts "0.3", 2000⟩
        (analyzeCatch (analyzeBody true u), [call])

/-- Request of `extract-keywords/route.ts`: the uploaded file, reduced to
its name and the text that `extractText` recovered from it. -/
structure KwFile where
  name : Str
  text : Str

structure KeywordsReq where
  file : Option KwFile

/-- `keywords.filter((k) => k && k.trim().length > 0)`: falsy entries drop
out, truthy strings are kept when their trim is non-empty, and a truthy
non-string makes `.trim()` throw a `TypeError`. -/
def filterKeywords : List JsonV → Except JsErr (List Str)
  | [] => .ok []
  | v :: rest =>
    if truthy v = false then filterKeywords rest
    else
      match v with
      | .str s =>
        if (trimStr s).length > 0 then
          match filterKeywords rest with
          | .ok ks => .ok (s :: ks)
          | .error e => .error e
        else filterKeywords rest
      | _ => .error (.typeErr (ts "k.trim is not a function"))

/-- The `catch` block of `extract-keywords/route.ts`. -/
def kwCatch : Except JsErr HttpResp → HttpResp
  | .ok r => r
  | .error .syntaxErr => ⟨500, errBody "Failed to parse AI response"⟩
  | .error e => ⟨500, errDetailsBody "Failed to extract keywords" (jsErrString e)⟩

def kwBody (f : KwFile) (u : OpenAIUp) : Except JsErr HttpResp :=
  if respOk u.status = false then
    match u.body with
    | none => .error .syntaxErr
    | some b => .error (.err (orDefault b.errorMessage "Failed to extract keywords"))
  else
    match u.body with
    | none => .error .syntaxErr
    | some b =>
      match chatContent b with
      | some c =>
        if c.isEmpty then .error (.err (ts "No content returned from AI"))
        else
          match parseLlmJson c with
          | none => .error .syntaxErr
          | some (.arr xs) =>
            match filterKeywords xs with
            | .ok ks => .ok ⟨200, .obj [
                (ts "keywords", .arr (ks.map .str)),
                (ts "fileName", .str f.name)]⟩
            | .error e => .error e
          | some _ => .error (.typeErr (ts "keywords.filter is not a function"))
      | none => .error (.err (ts "No content returned from AI"))

/-- `POST` of `src/sample-app/src/app/api/extract-keywords/route.ts`,
taking as input the text extracted from the uploaded file. -/
def extractKeywordsPOST (req : KeywordsReq) (env : Env) (u : OpenAIUp) :
    HttpResp × List UpstreamCall :=
  match req.file with
  | none => (⟨400, errBody "No file provided"⟩, [])
  | some f =>
    if f.text.length < 20 then
      (⟨400, .obj [
        (ts "error", .str (ts "Could not extract readable text from the file. Please try a .docx or .txt file.")),
        (ts "keywords", .arr [])]⟩, [])
    else
      match envKey env.openaiApiKey with
      | none => (⟨500, errBody "OPENAI_API_KEY is not configured. Please add it to your .env.local file."⟩, [])
      | some _ =>
        let call := UpstreamCall.openai
          ⟨ts "gpt-4o-mini", kwSystemPrompt, kwUserPrompt f.text, ts "0.1", 1000⟩
        (kwCatch (kwBody f u), [call])

/-! The extract-parties route (n8n webhook proxy). -/

structure PartiesReq where
  file : Option JFile

/-- `Array.isArray(data) ? data[0] : data`; `none` is JS `undefined`. -/
def unwrapN8n : JsonV → Option JsonV
  | .arr xs => xs.head?
  | d => some d

/-- JS property read `v[key]`: throws on `null`, is `undefined` on other
non-objects, and looks the field up on objects. -/
def jsGet (v : JsonV) (key : String) : Except JsErr (Option JsonV) :=
  match v with
  | .null => .error (.typeErr (ts ("Cannot read properties of null (reading " ++ key ++ ")")))
  | .obj fields => .ok (lookupField fields (ts key))
  | _ => .ok none

/-- `output.person_names` handling: skipped when falsy, split-trim-filtered
when a string, a `TypeError` when a truthy non-string. -/
def splitNames : Option JsonV → Except JsErr (List Str)
  | none => .ok []
  | some (.str s) =>
    if s.isEmpty then .ok []
    else .ok (((splitComma s).map trimStr).filter fun n => decide (0 < n.length))
  | some v =>
    if truthy v then .error (.typeErr (ts "split is not a function"))
    else .ok []

def natStr (n : Nat) : Str := ts (Nat.repr n)

/-- Success body `{ success: true, count: terms.length, terms }`. -/
def successTermsBody (terms : List JsonV) : JsonV := .obj [
  (ts "success", .bool true),
  (ts "count", .num (natStr terms.length)),
  (ts "terms", .arr terms)]

def invalidFormatResp : HttpResp := ⟨500, errBody "Invalid response format from n8n workflow"⟩

/-- The legacy branch: `responseData.output` with `person_names` /
`company_names` split, trimmed and filtered. -/
def partiesLegacy (rd : JsonV) : Except JsErr HttpResp := do
  let outputF ← jsGet rd "output"
  match outputF with
  | some output =>
    if truthy output then do
      let pn ← jsGet output "person_names"
      let cn ← jsGet output "company_names"
      let t1 ← splitNames pn
      let t2 ← splitNames cn
      .ok ⟨200, successTermsBody ((t1 ++ t2).map .str)⟩
    else .ok invalidFormatResp
  | none => .ok invalidFormatResp

/-- Processing of the (possibly array-unwrapped) n8n response value:
`{ success, terms }` passes through, otherwise the legacy format is
attempted, otherwise a 500 invalid-format answer. -/
def partiesProcess (rd : JsonV) : Except JsErr HttpResp := do
  let succ ← jsGet rd "success"
  let termsF ← jsGet rd "terms"
  match termsF with
  | some (.arr xs) =>
    if truthyO succ then .ok ⟨200, successTermsBody xs⟩
    else partiesLegacy rd
  | _ => partiesLegacy rd

def partiesBody (u : N8nUp) : Except JsErr HttpResp :=
  if respOk u.status = false then
    .ok ⟨u.status, errBodyS (ts "n8n extraction failed: " ++ u.textBody)⟩
  else
    match u.jsonBody with
    | none => .error .syntaxErr
    | some data =>
      match unwrapN8n data with
      | none => .error (.typeErr (ts "Cannot read properties of undefined (reading success)"))
      | some rd => partiesProcess rd

/-- The `catch` block of `extract-parties/route.ts`. -/
def partiesCatch : Except JsErr HttpResp → HttpResp
  | .ok r => r
  | .error e => ⟨500, errBodyS (jsErrMessage e)⟩

/-- `POST` of `src/sample-app/src/app/api/extract-parties/route.ts`. -/
def extractPartiesPOST (req : PartiesReq) (u : N8nUp) :
    HttpResp × List UpstreamCall :=
  match req.file with
  | none => (⟨400, errBody "No file provided"⟩, [])
  | some f => (partiesCatch (partiesBody u), [UpstreamCall.n8n f])

/-! The search-news route. -/

/-- Request body of the search-news route; `pageSize` and `timeRange` are
sent by the client but never read by the handler. -/
structure SearchNewsReq where
  names : Option Str
  variants : Option Str
  pageSize : Option Nat
  timeRange : Option Nat

/-- `[names, variants].filter(Boolean)`. -/
def newsKept (req : SearchNewsReq) : List Str :=
  ([req.names, req.variants].filterMap id).filter fun s => !s.isEmpty

/-- `[names, variants].filter(Boolean).join(" OR ")`. -/
def newsQuery (req : SearchNewsReq) : Str := joinSep (ts " OR ") (newsKept req)

/-- `data.articles || []` (a truthy value passes through verbatim). -/
def orEmptyArr (o : Option JsonV) : JsonV :=
  match o with
  | some v => if truthy v then v else .arr []
  | none => .arr []

/-- `data.totalResults || 0`. -/
def orZero (o : Option JsonV) : JsonV :=
  match o with
  | some v => if truthy v then v else .num (ts "0")
  | none => .num (ts "0")

/-- The `catch` block of the search-news route. -/
def newsCatch : Except JsErr HttpResp → HttpResp
  | .ok r => r
  | .error e => ⟨500, errDetailsBody "Failed to search news" (jsErrString e)⟩

def newsReqBody (u : NewsUp) : Except JsErr HttpResp :=
  if respOk u.status = false then
    match u.body with
    | none => .error .syntaxErr
    | some b => .error (.err (orDefault b.message "Failed to fetch news"))
  else
    match u.body with
    | none => .error .syntaxErr
    | some b => .ok ⟨200, .obj [
        (ts "articles", orEmptyArr b.articles),
        (ts "totalResults", orZero b.totalResults)]⟩

/-- `POST` of the search-news route (second document of
`extract-parties/route.ts`, lines 104-162). -/
def searchNewsPOST (req : SearchNewsReq) (env : Env) (u : NewsUp) :
    HttpResp × List UpstreamCall :=
  let searchTerms := newsQuery req
  if searchTerms.isEmpty then
    (⟨400, errBody "Please provide at least one search term"⟩, [])
  else
    match envKey env.newsApiKey with
    | none => (⟨500, errBody "NEWS_API_KEY is not configured. Please add it to your .env.local file."⟩, [])
    | some k =>
      let call := UpstreamCall.news ⟨searchTerms, ts "relevancy", ts "20", ts "en", k⟩
      (newsCatch (newsReqBody u), [call])

/-! The server surface: routes and a request dispatcher. -/

inductive ApiRoute where
  | analyze : ApiRoute
  | searchNews : ApiRoute
  | extractKeywords : ApiRoute
  | extractParties : ApiRoute
deriving DecidableEq

/-- URL paths of the POST route handlers present in the repository. -/
def routePath : ApiRoute → Str
  | .analyze => ts "/api/analyze"
  | .searchNews => ts "/api/search-news"
  | .extractKeywords => ts "/api/extract-keywords"
  | .extractParties => ts "/api/extract-parties"

/-- All POST route handlers of the server. -/
def serverRoutes : List ApiRoute :=
  [.analyze, .searchNews, .extractKeywords, .extractParties]

/-- Functional category of each route, in the spec's vocabulary. -/
inductive RouteRole where
  | newsSearch : RouteRole
  | textAnalysis : RouteRole
  | partyExtraction : RouteRole
deriving DecidableEq

def routeRole : ApiRoute → RouteRole
  | .analyze => .textAnalysis
  | .searchNews => .newsSearch
  | .extractKeywords => .partyExtraction
  | .extractParties => .partyExtraction

/-- One incoming request together with the response its upstream service
would give. -/
inductive ApiRequest where
  | analyze (r : AnalyzeReq) (u : OpenAIUp) : ApiRequest
  | searchNews (r : SearchNewsReq) (u : NewsUp) : ApiRequest
  | extractKeywords (r : KeywordsReq) (u : OpenAIUp) : ApiRequest
  | extractParties (r : PartiesReq) (u : N8nUp) : ApiRequest

/-- Dispatch one request to its route handler. -/
def handleApi (env : Env) : ApiRequest → HttpResp × List UpstreamCall
  | .analyze r u => analyzePOST r env u
  | .searchNews r u => searchNewsPOST r env u
  | .extractKeywords r u => extractKeywordsPOST r env u
  | .extractParties r u => extractPartiesPOST r u

def serverRespond (env : Env) (x : ApiRequest) : HttpResp := (handleApi env x).1

/-- The server processes a sequence of requests; the handlers keep no state
between requests, so a run is a pointwise map. -/
def serverRun (env : Env) (reqs : List ApiRequest) : List HttpResp :=
  reqs.map (serverRespond env)

/-! Shared concrete fixtures used by witnesses and counterexamples. -/

/-- An environment with both API keys configured. -/
def envBoth : Env := ⟨some (ts "sk-test"), some (ts "news-key")⟩

/-- A concrete news article. -/
def art0 : Article := ⟨ts "T", ts "D", some (ts "S"), ts "http://u", ts "2025-01-01"⟩

/-- A 200 OpenAI response whose single choice carries the given content. -/
def chatUp (c : String) : OpenAIUp := ⟨200, some ⟨[⟨some ⟨some (ts c)⟩⟩], none⟩⟩

/-- A concrete uploaded file. -/
def file0 : JFile := ⟨ts "doc.pdf", 1024⟩

/-! Claim C3. -/

/-- C3 counterexample: the claim says the server surface is exactly three
endpoints, but the repository defines four POST route handlers
(`/api/analyze`, `/api/search-news`, `/api/extract-keywords`,
`/api/extract-parties`). -/
theorem c3_counterexample_four_routes :
    serverRoutes.length = 4 ∧ ¬ serverRoutes.length = 3 := by decide

/-- C3 (amended): the server-side surface consists of four POST endpoints
with pairwise distinct paths: one news-search endpoint, one text-analysis
endpoint, and two document party-extraction endpoints. -/
theorem c3_amended_route_surface :
    serverRoutes.length = 4 ∧
    (serverRoutes.map routePath).Nodup ∧
    (serverRoutes.countP fun r => routeRole r == RouteRole.newsSearch) = 1 ∧
    (serverRoutes.countP fun r => routeRole r == RouteRole.textAnalysis) = 1 ∧
    (serverRoutes.countP fun r => routeRole r == RouteRole.partyExtraction) = 2 ∧
    ∀ r : ApiRoute, r ∈ serverRoutes := by
  refine ⟨by decide, by decide, by decide, by decide, by decide, ?_⟩
  intro r
  cases r <;> simp [serverRoutes]

/-! Claim C7. -/

/-- C7: the handlers are stateless and deterministic: a server run maps
requests pointwise, so the response to a request is a function of that
request, the environment, and the upstream response alone, and is the
same after any two histories. -/
theorem c7_stateless_deterministic (env : Env) (h1 h2 : List ApiRequest) (x : ApiRequest) :
    serverRun env (h1 ++ [x]) = serverRun env h1 ++ [serverRespond env x] ∧
    (serverRun env (h1 ++ [x])).getLast? = (serverRun env (h2 ++ [x])).getLast? := by
  constructor
  · simp [serverRun]
  · simp [serverRun, List.getLast?_concat]

/-! Claim C9. -/

/-- C9: when the text extracted from the uploaded file is shorter than 20
characters, the keyword-extraction endpoint answers 400 with an error
message and an empty keywords list, and issues no LLM call. -/
theorem c9_short_text_rejected (fn text : Str) (env : Env) (u : OpenAIUp)
    (h : text.length < 20) :
    extractKeywordsPOST ⟨some ⟨fn, text⟩⟩ env u =
      (⟨400, .obj [
        (ts "error", .str (ts "Could not extract readable text from the file. Please try a .docx or .txt file.")),
        (ts "keywords", .arr [])]⟩, []) := by
  simp [extractKeywordsPOST, h]

theorem c9_short_text_rejected_witness :
    extractKeywordsPOST ⟨some ⟨ts "a.txt", ts "hi"⟩⟩ envBoth (chatUp "[]") =
      (⟨400, .obj [
        (ts "error", .str (ts "Could not extract readable text from the file. Please try a .docx or .txt file.")),
        (ts "keywords", .arr [])]⟩, []) :=
  c9_short_text_rejected (ts "a.txt") (ts "hi") envBoth (chatUp "[]") (by decide)

/-! Claim C10. -/

/-- C10: the keyword-extraction prompt interpolates only the first 15000
characters of the extracted text, so two texts agreeing on that prefix
produce identical LLM calls and identical responses: parties first
mentioned later cannot influence the extracted keywords. -/
theorem c10_prompt_truncation (fn : Str) (env : Env) (u : OpenAIUp) :
    (∀ text : Str, kwUserPrompt text = kwPromptPart1 ++ text.take 15000 ++ kwPromptPart2) ∧
    (∀ t1 t2 : Str, t1.take 15000 = t2.take 15000 →
      extractKeywordsPOST ⟨some ⟨fn, t1⟩⟩ env u = extractKeywordsPOST ⟨some ⟨fn, t2⟩⟩ env u) := by
  refine ⟨fun _ => rfl, fun t1 t2 h => ?_⟩
  have hlen : min 15000 t1.length = min 15000 t2.length := by
    rw [← List.length_take 15000 t1, ← List.length_take 15000 t2, h]
  have h20 : t1.length < 20 ↔ t2.length < 20 := by omega
  have hb : kwBody ⟨fn, t1⟩ u = kwBody ⟨fn, t2⟩ u := rfl
  have hp : kwUserPrompt t1 = kwUserPrompt t2 := by simp [kwUserPrompt, h]
  by_cases hlt : t1.length < 20
  · have hlt2 : t2.length < 20 := h20.mp hlt
    simp [extractKeywordsPOST, hlt, hlt2]
  · have hlt2 : ¬ t2.length < 20 := fun hh => hlt (h20.mpr hh)
    simp [extractKeywordsPOST, hlt, hlt2, hp, hb]

theorem c10_prompt_truncation_witness :
    extractKeywordsPOST ⟨some ⟨ts "f.txt", List.replicate 15000 'a'⟩⟩ envBoth (chatUp "[]") =
      extractKeywordsPOST ⟨some ⟨ts "f.txt", List.replicate 15001 'a'⟩⟩ envBoth (chatUp "[]") :=
  (c10_prompt_truncation (ts "f.txt") envBoth (chatUp "[]")).2
    (List.replicate 15000 'a') (List.replicate 15001 'a')
    (by rw [List.take_replicate, List.take_replicate]; norm_num)

/-! Claim C8. -/

/-- C8: every NewsAPI call issued by the search-news endpoint carries the
fixed parameters `pageSize=20`, `sortBy=relevancy`, `language=en`, and the
`pageSize` / `timeRange` fields of the request body have no effect on the
endpoint's behaviour. -/
theorem c8_fixed_news_params (req : SearchNewsReq) (env : Env) (u : NewsUp) :
    ((searchNewsPOST req env u).2 = [] ∨
      (searchNewsPOST req env u).2 = [UpstreamCall.news
        ⟨newsQuery req, ts "relevancy", ts "20", ts "en", (envKey env.newsApiKey).getD []⟩]) ∧
    (∀ n v ps1 tr1 ps2 tr2,
      searchNewsPOST ⟨n, v, ps1, tr1⟩ env u = searchNewsPOST ⟨n, v, ps2, tr2⟩ env u) := by
  constructor
  · by_cases hq : (newsQuery req).isEmpty
    · left; simp [searchNewsPOST, hq]
    · cases hk : envKey env.newsApiKey with
      | none => left; simp [searchNewsPOST, hq, hk]
      | some k => right; simp [searchNewsPOST, hq, hk]
  · intro n v ps1 tr1 ps2 tr2
    rfl

/-! Claim C4. -/

/-- A request field that is absent or the empty string. -/
def blankOpt : Option Str → Bool
  | some s => s.isEmpty
  | none => true

/-- C4: the news-search endpoint builds its query by joining the truthy
ones among `names` and `variants` with `" OR "`; the query is empty
exactly when both fields are absent or empty; when it is empty the
endpoint answers the fixed 400 without calling the news provider, and a
400-with-no-provider-call answer happens exactly in that case. -/
theorem c4_empty_query_rejected (req : SearchNewsReq) (env : Env) (u : NewsUp) :
    ((newsQuery req).isEmpty = (blankOpt req.names && blankOpt req.variants)) ∧
    ((newsQuery req).isEmpty = true →
      searchNewsPOST req env u =
        (⟨400, errBody "Please provide at least one search term"⟩, [])) ∧
    (((searchNewsPOST req env u).1.status = 400 ∧ (searchNewsPOST req env u).2 = []) ↔
      (newsQuery req).isEmpty = true) := by
  have hfwd : (newsQuery req).isEmpty = true →
      searchNewsPOST req env u =
        (⟨400, errBody "Please provide at least one search term"⟩, []) := by
    intro h
    simp [searchNewsPOST, h]
  refine ⟨?_, hfwd, ?_, fun hq => by rw [hfwd hq]; exact ⟨rfl, rfl⟩⟩
  · rcases req with ⟨n, v, ps, tr⟩
    rcases n with _ | s <;> rcases v with _ | t
    · simp [newsQuery, newsKept, blankOpt, joinSep]
    · cases ht : t.isEmpty <;>
        simp_all [newsQuery, newsKept, blankOpt, joinSep, List.isEmpty_iff]
    · cases hs : s.isEmpty <;>
        simp_all [newsQuery, newsKept, blankOpt, joinSep, List.isEmpty_iff]
    · cases hs : s.isEmpty <;> cases ht : t.isEmpty <;>
        (simp_all [newsQuery, newsKept, blankOpt, joinSep, List.isEmpty_iff];
          all_goals (rcases s with _ | ⟨a, as⟩ <;> rcases t with _ | ⟨b, bs⟩ <;> simp_all))
  · rintro ⟨h400, hnil⟩
    by_contra hq
    have hq' : (newsQuery req).isEmpty = false := by
      cases h : (newsQuery req).isEmpty
      · rfl
      · exact absurd h hq
    cases hk : envKey env.newsApiKey with
    | none =>
      have h500 : (searchNewsPOST req env u).1.status = 500 := by
        simp [searchNewsPOST, hq', hk]
      rw [h500] at h400
      exact absurd h400 (by decide)
    | some k =>
      have hcall : (searchNewsPOST req env u).2 =
          [UpstreamCall.news ⟨newsQuery req, ts "relevancy", ts "20", ts "en", k⟩] := by
        simp [searchNewsPOST, hq', hk]
      rw [hcall] at hnil
      simp at hnil

theorem c4_empty_query_rejected_witness :
    searchNewsPOST ⟨none, some (ts ""), some 20, some 1⟩ envBoth ⟨200, none⟩ =
      (⟨400, errBody "Please provide at least one search term"⟩, []) :=
  (c4_empty_query_rejected ⟨none, some (ts ""), some 20, some 1⟩ envBoth ⟨200, none⟩).2.1
    (by decide)

/-! Claim C2. -/

/-- A successful analyze body comes from the single OpenAI response: its
payload is the `JSON.parse` of the returned content. -/
theorem analyzeBody_ok {strip : Bool} {u : OpenAIUp} {r : HttpResp}
    (h : analyzeBody strip u = .ok r) :
    ∃ c v, openaiContent u = some c ∧
      (if strip then parseLlmJson c else jsonParse c) = some v ∧ r = ⟨200, v⟩ := by
  unfold analyzeBody at h
  by_cases hok : respOk u.status = false
  · rw [if_pos hok] at h
    cases hb : u.body with
    | none => rw [hb] at h; simp at h
    | some b => rw [hb] at h; simp at h
  · rw [if_neg hok] at h
    cases hb : u.body with
    | none => rw [hb] at h; simp at h
    | some b =>
      rw [hb] at h
      dsimp only at h
      cases hcc : chatContent b with
      | none => rw [hcc] at h; simp at h
      | some c =>
        rw [hcc] at h
        dsimp only at h
        by_cases hce : c.isEmpty
        · rw [if_pos hce] at h; simp at h
        · rw [if_neg hce] at h
          cases hjp : (if strip then parseLlmJson c else jsonParse c) with
          | none => rw [hjp] at h; simp at h
          | some v =>
            rw [hjp] at h
            refine ⟨c, v, by simp [openaiContent, hb, hcc], hjp, ?_⟩
            cases h
            rfl

/-- C2 counterexample: with an empty articles list the analyze endpoint
returns a successful (200) response whose summary, risk level, conflicts
and recommendations are built locally, and it issues no LLM call. -/
theorem c2_counterexample_local_risk :
    (analyzePOST ⟨ts "Acme Corp", some []⟩ envBoth ⟨200, none⟩).1.status = 200 ∧
    (analyzePOST ⟨ts "Acme Corp", some []⟩ envBoth ⟨200, none⟩).2 = [] ∧
    (analyzePOST ⟨ts "Acme Corp", some []⟩ envBoth ⟨200, none⟩).1.body = localAnalysisBody :=
  ⟨rfl, rfl, rfl⟩

/-- C2 (amended): when the articles list is absent or empty, the analyze
endpoint answers with the fixed local analysis (risk level LOW) and no
upstream call; for a non-empty articles list, every successful response
is the `JSON.parse` of the content returned by the single OpenAI call. -/
theorem c2_amended_llm_delegation (st : Str) (env : Env) (u : OpenAIUp) :
    (∀ o : Option (List Article), (o = none ∨ o = some []) →
      analyzePOST ⟨st, o⟩ env u = (⟨200, localAnalysisBody⟩, [])) ∧
    (∀ arts : List Article, arts ≠ [] →
      (analyzePOST ⟨st, some arts⟩ env u).1.status = 200 →
      (analyzePOST ⟨st, some arts⟩ env u).2.length = 1 ∧
      (openaiContent u).bind jsonParse =
        some (analyzePOST ⟨st, some arts⟩ env u).1.body) := by
  constructor
  · rintro o (rfl | rfl) <;> simp [analyzePOST]
  · intro arts harts
    have hlen : ¬ arts.length = 0 := by simpa [List.length_eq_zero] using harts
    cases hk : envKey env.openaiApiKey with
    | none =>
      intro hstatus
      simp [analyzePOST, hlen, hk] at hstatus
    | some k =>
      have hred : analyzePOST ⟨st, some arts⟩ env u =
          (analyzeCatch (analyzeBody false u),
            [UpstreamCall.openai ⟨ts "gpt-4o-mini", analyzeSystemPrompt,
              analyzeUserPrompt st arts, ts "0.3", 2000⟩]) := by
        simp [analyzePOST, hlen, hk]
      rw [hred]
      intro hstatus
      cases hb : analyzeBody false u with
      | error e =>
        rw [hb] at hstatus
        cases e <;> simp [analyzeCatch] at hstatus
      | ok r =>
        obtain ⟨c, v, hc, hp, hr⟩ := analyzeBody_ok hb
        subst hr
        refine ⟨rfl, ?_⟩
        rw [hc]
        simpa [analyzeCatch] using hp

theorem c2_amended_llm_delegation_witness :
    analyzePOST ⟨ts "t", none⟩ envBoth (chatUp "[1]") = (⟨200, localAnalysisBody⟩, []) ∧
    ((analyzePOST ⟨ts "t", some [art0]⟩ envBoth (chatUp "[1]")).2.length = 1 ∧
      (openaiContent (chatUp "[1]")).bind jsonParse =
        some (analyzePOST ⟨ts "t", some [art0]⟩ envBoth (chatUp "[1]")).1.body) :=
  ⟨(c2_amended_llm_delegation (ts "t") envBoth (chatUp "[1]")).1 none (Or.inl rfl),
   (c2_amended_llm_delegation (ts "t") envBoth (chatUp "[1]")).2 [art0] (by simp) (by rfl)⟩

/-! Claim C6. -/

theorem respOk500 : respOk 500 = false := by decide

/-- A failed upstream OpenAI response makes both analyze bodies throw. -/
theorem analyzeBody_error_of_fail {strip : Bool} {u : OpenAIUp}
    (hf : respOk u.status = false) : ∃ e, analyzeBody strip u = .error e := by
  unfold analyzeBody
  rw [if_pos hf]
  cases u.body <;> exact ⟨_, rfl⟩

theorem kwBody_error_of_fail {f : KwFile} {u : OpenAIUp}
    (hf : respOk u.status = false) : ∃ e, kwBody f u = .error e := by
  unfold kwBody
  rw [if_pos hf]
  cases u.body <;> exact ⟨_, rfl⟩

theorem newsReqBody_error_of_fail {u : NewsUp}
    (hf : respOk u.status = false) : ∃ e, newsReqBody u = .error e := by
  unfold newsReqBody
  rw [if_pos hf]
  cases u.body <;> exact ⟨_, rfl⟩

theorem analyzeCatch_error_status (e : JsErr) : (analyzeCatch (.error e)).status = 500 := by
  cases e <;> rfl

theorem kwCatch_error_status (e : JsErr) : (kwCatch (.error e)).status = 500 := by
  cases e <;> rfl

theorem newsCatch_error_status (e : JsErr) : (newsCatch (.error e)).status = 500 := by
  cases e <;> rfl

/-- C6: each endpoint issues at most one upstream request per incoming
request, and when that single upstream call fails (non-2xx status) the
endpoint returns an error (non-2xx) response — there is no retry. -/
theorem c6_single_call_no_retry
    (ra : AnalyzeReq) (rk : KeywordsReq) (rp : PartiesReq) (rs : SearchNewsReq)
    (env : Env) (ua uk : OpenAIUp) (un : N8nUp) (us : NewsUp) :
    ((analyzePOST ra env ua).2.length ≤ 1 ∧
     (part000AnalyzePOST ra env ua).2.length ≤ 1 ∧
     (extractKeywordsPOST rk env uk).2.length ≤ 1 ∧
     (extractPartiesPOST rp un).2.length ≤ 1 ∧
     (searchNewsPOST rs env us).2.length ≤ 1) ∧
    (((analyzePOST ra env ua).2 ≠ [] → respOk ua.status = false →
        respOk (analyzePOST ra env ua).1.status = false) ∧
     ((part000AnalyzePOST ra env ua).2 ≠ [] → respOk ua.status = false →
        respOk (part000AnalyzePOST ra env ua).1.status = false) ∧
     ((extractKeywordsPOST rk env uk).2 ≠ [] → respOk uk.status = false →
        respOk (extractKeywordsPOST rk env uk).1.status = false) ∧
     ((extractPartiesPOST rp un).2 ≠ [] → respOk un.status = false →
        respOk (extractPartiesPOST rp un).1.status = false) ∧
     ((searchNewsPOST rs env us).2 ≠ [] → respOk us.status = false →
        respOk (searchNewsPOST rs env us).1.status = false)) := by
  obtain ⟨sta, oa⟩ := ra
  obtain ⟨ofk⟩ := rk
  obtain ⟨ofp⟩ := rp
  constructor
  · refine ⟨?_, ?_, ?_, ?_, ?_⟩
    · cases oa with
      | none => simp [analyzePOST]
      | some arts =>
        by_cases h : arts.length = 0
        · simp [analyzePOST, h]
        · cases hk : envKey env.openaiApiKey <;> simp [analyzePOST, h, hk]
    · cases oa with
      | none => simp [part000AnalyzePOST]
      | some arts =>
        by_cases h : arts.length = 0
        · simp [part000AnalyzePOST, h]
        · cases hk : envKey env.openaiApiKey <;> simp [part000AnalyzePOST, h, hk]
    · cases ofk with
      | none => simp [extractKeywordsPOST]
      | some f =>
        by_cases h : f.text.length < 20
        · simp [extractKeywordsPOST, h]
        · cases hk : envKey env.openaiApiKey <;> simp [extractKeywordsPOST, h, hk]
    · cases ofp with
      | none => simp [extractPartiesPOST]
      | some f => simp [extractPartiesPOST]
    · by_cases hq : (newsQuery rs).isEmpty
      · simp [searchNewsPOST, hq]
      · cases hk : envKey env.newsApiKey <;> simp [searchNewsPOST, hq, hk]
  · refine ⟨?_, ?_, ?_, ?_, ?_⟩
    · intro hne hf
      cases oa with
      | none => simp [analyzePOST] at hne
      | some arts =>
        by_cases h : arts.length = 0
        · simp [analyzePOST, h] at hne
        · cases hk : envKey env.openaiApiKey with
          | none => simp [analyzePOST, h, hk] at hne
          | some k =>
            obtain ⟨e, he⟩ := @analyzeBody_error_of_fail false ua hf
            simp [analyzePOST, h, hk, he, analyzeCatch_error_status, respOk500]
    · intro hne hf
      cases oa with
      | none => simp [part000AnalyzePOST] at hne
      | some arts =>
        by_cases h : arts.length = 0
        · simp [part000AnalyzePOST, h] at hne
        · cases hk : envKey env.openaiApiKey with
          | none => simp [part000AnalyzePOST, h, hk] at hne
          | some k =>
            obtain ⟨e, he⟩ := @analyzeBody_error_of_fail true ua hf
            simp [part000AnalyzePOST, h, hk, he, analyzeCatch_error_status, respOk500]
    · intro hne hf
      cases ofk with
      | none => simp [extractKeywordsPOST] at hne
      | some f =>
        by_cases h : f.text.length < 20
        · simp [extractKeywordsPOST, h] at hne
        · cases hk : envKey env.openaiApiKey with
          | none => simp [extractKeywordsPOST, h, hk] at hne
          | some k =>
            obtain ⟨e, he⟩ := @kwBody_error_of_fail f uk hf
            simp [extractKeywordsPOST, h, hk, he, kwCatch_error_status, respOk500]
    · intro hne hf
      cases ofp with
      | none => simp [extractPartiesPOST] at hne
      | some f =>
        simp [extractPartiesPOST, partiesBody, hf, partiesCatch]
    · intro hne hf
      by_cases hq : (newsQuery rs).isEmpty
      · simp [searchNewsPOST, hq] at hne
      · cases hk : envKey env.newsApiKey with
        | none => simp [searchNewsPOST, hq, hk] at hne
        | some k =>
          obtain ⟨e, he⟩ := newsReqBody_error_of_fail hf
          simp [searchNewsPOST, hq, hk, he, newsCatch_error_status, respOk500]

/-! Claim C5. -/

def pnFields : Option Str → List (Str × JsonV)
  | some s => [(ts "person_names", .str s)]
  | none => []

def cnFields : Option Str → List (Str × JsonV)
  | some s => [(ts "company_names", .str s)]
  | none => []

/-- An upstream n8n answer in the legacy format
`{ output: { person_names, company_names } }`. -/
def legacyN8n (pn cn : Option Str) : JsonV :=
  .obj [(ts "output", .obj (pnFields pn ++ cnFields cn))]

/-- Terms the claim expects from a legacy answer: the comma-separated
person names followed by the comma-separated company names, each entry
whitespace-trimmed and non-empty. Stated from the claim's words, to be
compared with the handler's behaviour. -/
def specSplitNames : Option Str → List Str
  | none => []
  | some s => ((splitComma s).map trimStr).filter fun n => decide (0 < n.length)

def specLegacyTerms (pn cn : Option Str) : List Str :=
  specSplitNames pn ++ specSplitNames cn

/-- The `{ success, terms }` check of the handler, as a predicate on the
raw (array-unwrapped) response value. -/
def rdNewFormat : JsonV → Bool
  | .obj fs =>
    truthyO (lookupField fs (ts "success")) &&
      (match lookupField fs (ts "terms") with
      | some (.arr _) => true
      | _ => false)
  | _ => false

/-- The legacy `{ output: ... }` check of the handler, as a predicate on
the raw (array-unwrapped) response value. -/
def rdLegacyFormat : JsonV → Bool
  | .obj fs => truthyO (lookupField fs (ts "output"))
  | _ => false

def isNewFormat (d : JsonV) : Bool :=
  match unwrapN8n d with
  | some rd => rdNewFormat rd
  | none => false

def isLegacyFormat (d : JsonV) : Bool :=
  match unwrapN8n d with
  | some rd => rdLegacyFormat rd
  | none => false

/-- The handler's split-trim-filter of a string field agrees with the
claim's description. -/
theorem splitNames_str (s : Str) :
    splitNames (some (.str s)) = .ok (specSplitNames (some s)) := by
  cases s with
  | nil => rfl
  | cons a l => rfl

theorem partiesCatch_error_status (e : JsErr) : (partiesCatch (.error e)).status = 500 := by
  cases e <;> rfl

theorem exceptBind_ok {α β ε : Type} (x : α) (f : α → Except ε β) :
    (Except.ok x >>= f) = f x := rfl

theorem exceptBind_error {α β ε : Type} (e : ε) (f : α → Except ε β) :
    ((Except.error e : Except ε α) >>= f) = Except.error e := rfl

/-- A response value matching neither format ends in the invalid-format
answer or in a thrown exception. -/
theorem partiesProcess_invalid (rd : JsonV)
    (h1 : rdNewFormat rd = false) (h2 : rdLegacyFormat rd = false) :
    partiesProcess rd = .ok invalidFormatResp ∨ ∃ e, partiesProcess rd = .error e := by
  cases rd with
  | null => right; exact ⟨_, rfl⟩
  | obj fs =>
    simp only [rdNewFormat, Bool.and_eq_false_iff] at h1
    simp only [rdLegacyFormat] at h2
    left
    simp only [partiesProcess, partiesLegacy, jsGet, exceptBind_ok]
    cases hterms : lookupField fs (ts "terms") with
    | none =>
      simp only [hterms]
      cases hout : lookupField fs (ts "output") with
      | none => rfl
      | some out =>
        rw [hout] at h2
        simp only [truthyO] at h2
        simp [hout, h2]
    | some tv =>
      cases tv with
      | arr xs =>
        rcases h1 with h1 | h1
        · simp only [hterms]
          rw [if_neg (by simp [h1])]
          cases hout : lookupField fs (ts "output") with
          | none => simp [hout]
          | some out =>
            rw [hout] at h2
            simp only [truthyO] at h2
            simp [hout, h2]
        · rw [hterms] at h1
          simp at h1
      | null =>
        simp only [hterms]
        cases hout : lookupField fs (ts "output") with
        | none => rfl
        | some out =>
          rw [hout] at h2
          simp only [truthyO] at h2
          simp [hout, h2]
      | bool b =>
        simp only [hterms]
        cases hout : lookupField fs (ts "output") with
        | none => rfl
        | some out =>
          rw [hout] at h2
          simp only [truthyO] at h2
          simp [hout, h2]
      | num raw =>
        simp only [hterms]
        cases hout : lookupField fs (ts "output") with
        | none => rfl
        | some out =>
          rw [hout] at h2
          simp only [truthyO] at h2
          simp [hout, h2]
      | str s =>
        simp only [hterms]
        cases hout : lookupField fs (ts "output") with
        | none => rfl
        | some out =>
          rw [hout] at h2
          simp only [truthyO] at h2
          simp [hout, h2]
      | obj gs =>
        simp only [hterms]
        cases hout : lookupField fs (ts "output") with
        | none => rfl
        | some out =>
          rw [hout] at h2
          simp only [truthyO] at h2
          simp [hout, h2]
  | bool b => left; rfl
  | num raw => left; rfl
  | str s => left; rfl
  | arr xs => left; rfl

theorem splitNames_none : splitNames none = .ok (specSplitNames none) := rfl

/-- C5: an upstream legacy-format answer (optionally wrapped in a
one-element array) yields a success response whose terms are the
comma-separated person names followed by the comma-separated company
names, trimmed and non-empty, with `count` the number of terms; an
answer matching neither the `{ success, terms }` format nor the legacy
format yields an HTTP 500 error. -/
theorem c5_legacy_and_invalid_format (pn cn : Option Str) (wrapb : Bool) (f : JFile) (txt : Str) :
    (extractPartiesPOST ⟨some f⟩
        ⟨200, txt, some (if wrapb then .arr [legacyN8n pn cn] else legacyN8n pn cn)⟩ =
      (⟨200, successTermsBody ((specLegacyTerms pn cn).map .str)⟩, [.n8n f])) ∧
    (∀ d : JsonV, isNewFormat d = false → isLegacyFormat d = false →
      (extractPartiesPOST ⟨some f⟩ ⟨200, txt, some d⟩).1.status = 500) := by
  have h200 : respOk (200 : Nat) = true := by decide
  constructor
  · have hproc : partiesProcess (legacyN8n pn cn) =
        .ok ⟨200, successTermsBody ((specLegacyTerms pn cn).map .str)⟩ := by
      rcases pn with _ | s <;> rcases cn with _ | t <;>
        simp +decide [partiesProcess, partiesLegacy, legacyN8n, jsGet, lookupField,
          pnFields, cnFields, exceptBind_ok, splitNames_str, splitNames_none,
          specLegacyTerms, truthy, truthyO]
    have hu1 : unwrapN8n (JsonV.arr [legacyN8n pn cn]) = some (legacyN8n pn cn) := rfl
    have hu2 : unwrapN8n (legacyN8n pn cn) = some (legacyN8n pn cn) := rfl
    cases wrapb <;>
      simp [extractPartiesPOST, partiesBody, hu1, hu2, hproc, partiesCatch, h200]
  · intro d h1 h2
    cases hu : unwrapN8n d with
    | none =>
      simp [extractPartiesPOST, partiesBody, hu, h200, partiesCatch]
    | some rd =>
      have h1' : rdNewFormat rd = false := by simpa [isNewFormat, hu] using h1
      have h2' : rdLegacyFormat rd = false := by simpa [isLegacyFormat, hu] using h2
      rcases partiesProcess_invalid rd h1' h2' with hp | ⟨e, hp⟩
      · simp [extractPartiesPOST, partiesBody, hu, h200, hp, partiesCatch, invalidFormatResp]
      · simp [extractPartiesPOST, partiesBody, hu, h200, hp, partiesCatch_error_status]

theorem c5_legacy_and_invalid_format_witness :
    (extractPartiesPOST ⟨some file0⟩
        ⟨200, ts "", some (.arr [legacyN8n (some (ts " John Smith, ,Jane Doe")) (some (ts "Acme Ltd"))])⟩ =
      (⟨200, successTermsBody
          ((specLegacyTerms (some (ts " John Smith, ,Jane Doe")) (some (ts "Acme Ltd"))).map .str)⟩,
        [.n8n file0])) ∧
    (extractPartiesPOST ⟨some file0⟩ ⟨200, ts "", some (.str (ts "x"))⟩).1.status = 500 :=
  ⟨(c5_legacy_and_invalid_format (some (ts " John Smith, ,Jane Doe")) (some (ts "Acme Ltd"))
      true file0 (ts "")).1,
   (c5_legacy_and_invalid_format (some (ts " John Smith, ,Jane Doe")) (some (ts "Acme Ltd"))
      true file0 (ts "")).2 (.str (ts "x")) (by decide) (by decide)⟩

/-! Claim C1. -/

/-- A payload wrapped in a markdown ```` ```json ```` fence. -/
def wrapJsonFence (s : Str) : Str :=
  ts "```json" ++ (ts "\n" ++ (s ++ (ts "\n" ++ ts "```")))

theorem isPrefixOf_append_self (p r : Str) : p.isPrefixOf (p ++ r) = true := by
  induction p with
  | nil => simp [List.isPrefixOf]
  | cons a as ih => simp [List.isPrefixOf, ih]

theorem isSuffixOf_append_self (x p : Str) : p.isSuffixOf (x ++ p) = true := by
  simp only [List.isSuffixOf, List.reverse_append]
  exact isPrefixOf_append_self p.reverse x.reverse

/-- Trimming is unchanged by the fence wrapper (it neither starts nor ends
with whitespace). -/
theorem trimStr_wrap_eq (s : Str) : trimStr (wrapJsonFence s) = wrapJsonFence s := by
  have hbt : jsWs (Char.ofNat 96) = false := by decide
  have h1 : (wrapJsonFence s).dropWhile jsWs = wrapJsonFence s := by
    have e : wrapJsonFence s =
        Char.ofNat 96 :: (ts "``json" ++ (ts "\n" ++ (s ++ (ts "\n" ++ ts "```")))) := rfl
    rw [e, List.dropWhile_cons, hbt]
    simp
  have h2 : (wrapJsonFence s).reverse.dropWhile jsWs = (wrapJsonFence s).reverse := by
    have e : wrapJsonFence s =
        (ts "```json" ++ (ts "\n" ++ (s ++ ts "\n"))) ++ ts "```" := by
      simp [wrapJsonFence]
    rw [e, List.reverse_append]
    have e4 : (ts "```").reverse = Char.ofNat 96 :: ts "``" := by decide
    rw [e4, List.cons_append, List.dropWhile_cons, hbt]
    simp
  unfold trimStr
  rw [h1, h2, List.reverse_reverse]

/-- Trimming absorbs the newline padding left by fence removal. -/
theorem trimStr_pad (s : Str) : trimStr (ts "\n" ++ (s ++ ts "\n")) = trimStr s := by
  have hnl : jsWs '\n' = true := by decide
  have e : ts "\n" ++ (s ++ ts "\n") = '\n' :: (s ++ ['\n']) := rfl
  unfold trimStr
  rw [e, List.dropWhile_cons, hnl]
  simp only [if_true]
  rw [List.dropWhile_append]
  by_cases hd : (s.dropWhile jsWs).isEmpty
  · have hd' : s.dropWhile jsWs = [] := by simpa using hd
    rw [if_pos (by simp [hd])]
    rw [hd']
    have : List.dropWhile jsWs ['\n'] = [] := by decide
    rw [this]
  · rw [if_neg (by simpa using hd)]
    rw [List.reverse_append]
    have : List.reverse ['\n'] = '\n' :: [] := rfl
    rw [this, List.cons_append, List.dropWhile_cons, hnl]
    simp

/-- Fence stripping recovers the trimmed payload from a fenced payload. -/
theorem stripFences_wrap (s : Str) : stripFences (wrapJsonFence s) = trimStr s := by
  have hpre : (ts "```json").isPrefixOf (wrapJsonFence s) = true :=
    isPrefixOf_append_self (ts "```json") _
  have hdrop : (wrapJsonFence s).drop 7 = ts "\n" ++ (s ++ (ts "\n" ++ ts "```")) := by
    rw [show (7 : Nat) = (ts "```json").length from by decide]
    exact List.drop_left _ _
  have easc : ts "\n" ++ (s ++ (ts "\n" ++ ts "```")) =
      (ts "\n" ++ (s ++ ts "\n")) ++ ts "```" := by
    simp [List.append_assoc]
  have hsuf : (ts "```").isSuffixOf (ts "\n" ++ (s ++ (ts "\n" ++ ts "```"))) = true := by
    rw [easc]
    exact isSuffixOf_append_self _ _
  have htake : (ts "\n" ++ (s ++ (ts "\n" ++ ts "```"))).take
      ((ts "\n" ++ (s ++ (ts "\n" ++ ts "```"))).length - 3) = ts "\n" ++ (s ++ ts "\n") := by
    rw [easc, List.length_append]
    have h3 : (ts "```").length = 3 := by decide
    rw [h3, Nat.add_sub_cancel]
    exact List.take_left _ _
  unfold stripFences
  rw [trimStr_wrap_eq]
  simp only [hpre, if_true, hdrop, hsuf, htake]
  exact trimStr_pad s

/-- The sample-app analyze route does not strip fences, and no JSON value
starts with a backtick, so `JSON.parse` rejects every fenced payload. -/
theorem jsonParse_wrap_none (s : Str) : jsonParse (wrapJsonFence s) = none := by
  have e : wrapJsonFence s =
      Char.ofNat 96 :: (ts "``json" ++ (ts "\n" ++ (s ++ (ts "\n" ++ ts "```")))) := rfl
  rw [e]
  unfold jsonParse
  have hbt : jsWs (Char.ofNat 96) = false := by decide
  simp +decide [parseP, skipWs, List.dropWhile_cons, hbt]

/-- C1 counterexample: the sample-app analyze endpoint passes the LLM
content to `JSON.parse` without stripping the markdown fence, so a fenced
but valid payload yields the parse-error response. -/
theorem c1_counterexample_analyze_no_strip :
    jsonValid (ts "[1]") = true ∧
    stripFences (ts "```json\n[1]\n```") = ts "[1]" ∧
    (analyzePOST ⟨ts "q", some [art0]⟩ envBoth
        ⟨200, some ⟨[⟨some ⟨some (ts "```json\n[1]\n```")⟩⟩], none⟩⟩).1 =
      ⟨500, errBody "Failed to parse AI analysis response"⟩ :=
  ⟨by decide, by decide, rfl⟩

/-- A payload wrapped in a plain ```` ``` ```` fence (no language tag). -/
def wrapPlainFence (s : Str) : Str :=
  ts "```" ++ (ts "\n" ++ (s ++ (ts "\n" ++ ts "```")))

theorem isPrefixOf_cons_eq (a b : Char) (as bs : Str) :
    (a :: as).isPrefixOf (b :: bs) = (a == b && as.isPrefixOf bs) := rfl

/-- A plain fence is not mistaken for a ```` ```json ```` fence: the
fourth character is the newline, not `j`. -/
theorem json_fence_not_prefix_plain (s : Str) :
    (ts "```json").isPrefixOf (wrapPlainFence s) = false := by
  have e1 : ts "```json" =
      Char.ofNat 96 :: (Char.ofNat 96 :: (Char.ofNat 96 :: ('j' :: ts "son"))) := by decide
  have e2 : wrapPlainFence s =
      Char.ofNat 96 :: (Char.ofNat 96 :: (Char.ofNat 96 ::
        ('\n' :: (s ++ (ts "\n" ++ ts "```"))))) := rfl
  rw [e1, e2]
  simp +decide [isPrefixOf_cons_eq]

/-- Trimming is unchanged by the plain fence wrapper. -/
theorem trimStr_plainwrap_eq (s : Str) : trimStr (wrapPlainFence s) = wrapPlainFence s := by
  have hbt : jsWs (Char.ofNat 96) = false := by decide
  have h1 : (wrapPlainFence s).dropWhile jsWs = wrapPlainFence s := by
    have e : wrapPlainFence s =
        Char.ofNat 96 :: (ts "``" ++ (ts "\n" ++ (s ++ (ts "\n" ++ ts "```")))) := rfl
    rw [e, List.dropWhile_cons, hbt]
    simp
  have h2 : (wrapPlainFence s).reverse.dropWhile jsWs = (wrapPlainFence s).reverse := by
    have e : wrapPlainFence s =
        (ts "```" ++ (ts "\n" ++ (s ++ ts "\n"))) ++ ts "```" := by
      simp [wrapPlainFence]
    rw [e, List.reverse_append]
    have e4 : (ts "```").reverse = Char.ofNat 96 :: ts "``" := by decide
    rw [e4, List.cons_append, List.dropWhile_cons, hbt]
    simp
  unfold trimStr
  rw [h1, h2, List.reverse_reverse]

/-- Fence stripping recovers the trimmed payload from a plain-fenced
payload (via the `slice(3)` branch of the code). -/
theorem stripFences_plainwrap (s : Str) : stripFences (wrapPlainFence s) = trimStr s := by
  have hpre1 : (ts "```json").isPrefixOf (wrapPlainFence s) = false :=
    json_fence_not_prefix_plain s
  have hpre2 : (ts "```").isPrefixOf (wrapPlainFence s) = true :=
    isPrefixOf_append_self (ts "```") _
  have hdrop : (wrapPlainFence s).drop 3 = ts "\n" ++ (s ++ (ts "\n" ++ ts "```")) := by
    rw [show (3 : Nat) = (ts "```").length from by decide]
    exact List.drop_left _ _
  have easc : ts "\n" ++ (s ++ (ts "\n" ++ ts "```")) =
      (ts "\n" ++ (s ++ ts "\n")) ++ ts "```" := by
    simp [List.append_assoc]
  have hsuf : (ts "```").isSuffixOf (ts "\n" ++ (s ++ (ts "\n" ++ ts "```"))) = true := by
    rw [easc]
    exact isSuffixOf_append_self _ _
  have htake : (ts "\n" ++ (s ++ (ts "\n" ++ ts "```"))).take
      ((ts "\n" ++ (s ++ (ts "\n" ++ ts "```"))).length - 3) = ts "\n" ++ (s ++ ts "\n") := by
    rw [easc, List.length_append]
    have h3 : (ts "```").length = 3 := by decide
    rw [h3, Nat.add_sub_cancel]
    exact List.take_left _ _
  unfold stripFences
  rw [trimStr_plainwrap_eq]
  simp only [hpre1, Bool.false_eq_true, if_false, hpre2, if_true, hdrop, hsuf, htake]
  exact trimStr_pad s

/-- No JSON value starts with a backtick, so `JSON.parse` also rejects
every plain-fenced payload. -/
theorem jsonParse_plainwrap_none (s : Str) : jsonParse (wrapPlainFence s) = none := by
  have e : wrapPlainFence s =
      Char.ofNat 96 :: (ts "``" ++ (ts "\n" ++ (s ++ (ts "\n" ++ ts "```")))) := rfl
  rw [e]
  unfold jsonParse
  have hbt : jsWs (Char.ofNat 96) = false := by decide
  simp +decide [parseP, skipWs, List.dropWhile_cons, hbt]

/-- C1 (amended): the keyword-extraction endpoint and the `part_000`
analyze variant parse LLM content through `parseLlmJson`, which strips a
leading ```` ```json ```` or plain ```` ``` ```` fence and the trailing
```` ``` ````, so a payload wrapped in either fence form parses
successfully there whenever the payload itself is valid JSON; the
sample-app analyze endpoint applies `JSON.parse` to the raw content, on
which every payload in either fence form fails. -/
theorem c1_amended_fence_handling (s : Str) (h : jsonValid (trimStr s) = true) :
    (parseLlmJson (wrapJsonFence s) = jsonParse (trimStr s) ∧
      (parseLlmJson (wrapJsonFence s)).isSome = true ∧
      jsonParse (wrapJsonFence s) = none) ∧
    (parseLlmJson (wrapPlainFence s) = jsonParse (trimStr s) ∧
      (parseLlmJson (wrapPlainFence s)).isSome = true ∧
      jsonParse (wrapPlainFence s) = none) := by
  refine ⟨⟨by rw [parseLlmJson, stripFences_wrap], ?_, jsonParse_wrap_none s⟩,
    ⟨by rw [parseLlmJson, stripFences_plainwrap], ?_, jsonParse_plainwrap_none s⟩⟩
  · rw [parseLlmJson, stripFences_wrap]
    simpa [jsonValid] using h
  · rw [parseLlmJson, stripFences_plainwrap]
    simpa [jsonValid] using h

theorem c1_amended_fence_handling_witness :
    (parseLlmJson (wrapJsonFence (ts "[1, 2]")) = jsonParse (trimStr (ts "[1, 2]")) ∧
      (parseLlmJson (wrapJsonFence (ts "[1, 2]"))).isSome = true ∧
      jsonParse (wrapJsonFence (ts "[1, 2]")) = none) ∧
    (parseLlmJson (wrapPlainFence (ts "[1, 2]")) = jsonParse (trimStr (ts "[1, 2]")) ∧
      (parseLlmJson (wrapPlainFence (ts "[1, 2]"))).isSome = true ∧
      jsonParse (wrapPlainFence (ts "[1, 2]")) = none) :=
  c1_amended_fence_handling (ts "[1, 2]") (by decide)

theorem c6_single_call_no_retry_witness :
    (extractPartiesPOST ⟨some file0⟩ ⟨404, ts "upstream down", none⟩).2.length ≤ 1 ∧
    respOk (extractPartiesPOST ⟨some file0⟩ ⟨404, ts "upstream down", none⟩).1.status = false :=
  have h := c6_single_call_no_retry ⟨ts "q", some [art0]⟩ ⟨some ⟨ts "f", ts "x"⟩⟩
    ⟨some file0⟩ ⟨some (ts "n"), none, none, none⟩ envBoth
    ⟨200, none⟩ ⟨200, none⟩ ⟨404, ts "upstream down", none⟩ ⟨200, none⟩
  ⟨h.1.2.2.2.1,
   h.2.2.2.2.1
     (by
       rw [show (extractPartiesPOST ⟨some file0⟩ ⟨404, ts "upstream down", none⟩).2 =
         [UpstreamCall.n8n file0] from rfl]
       exact List.cons_ne_nil _ _)
     (by decide)⟩
